import Mathlib

/-!
Verification development for the AlphaPulse signal-detection core.

The Python source is shallowly embedded: SQLAlchemy rows become Lean
structures, the database session becomes an explicit `DB` value threaded
through each operation, `datetime.utcnow()` becomes an explicit `now : Int`
(seconds since epoch), and Python floats become exact rationals `ℚ` (the
code only does threshold comparisons and field arithmetic on them).
`Optional[float]` fields become `Option ℚ`; Python truthiness on such a
field (`if x:`) is `qTruthy`.  The free-form `details` dict of a
`SignalResult` is flattened to the named fields the code writes into it.
-/

/-- Python truthiness of an `Optional[float]`: false for `None` and `0.0`. -/
def qTruthy : Option ℚ → Bool
  | none => false
  | some x => x != 0

/-- Row of `smart_wallets` (db/models.py, class SmartWallet).  Fields not
read by the verified operations (tag, source, timestamps) are omitted. -/
structure SmartWallet where
  id : Nat
  address : String
  win_rate : ℚ := 0
  total_trades : Nat := 0
  trades_7d : Nat := 0
  pnl_total_sol : ℚ := 0
  pnl_7d_sol : ℚ := 0
  avg_hold_time_mins : Option ℚ := none
  conviction_score : ℚ := 0
  is_active : Bool := true
  last_activity : Option Int := none
  deriving Repr, DecidableEq

/-- Row of `tokens` (db/models.py, class Token). -/
structure Token where
  id : Nat
  contract_address : String
  name : Option String := none
  symbol : Option String := none
  market_cap_sol : Option ℚ := none
  liquidity_sol : Option ℚ := none
  total_supply : Option ℚ := none
  platform : String := "unknown"
  launched_at : Option Int := none
  is_rugged : Bool := false
  deriving Repr, DecidableEq

/-- `Token.age_minutes` (db/models.py): 0 when `launched_at` is null, else
minutes elapsed since launch. -/
def Token.age_minutes (t : Token) (now : Int) : ℚ :=
  match t.launched_at with
  | none => 0
  | some l => ((now - l : Int) : ℚ) / 60

/-- Row of `trades` (db/models.py, class Trade). -/
structure Trade where
  id : Nat
  wallet_id : Nat
  token_id : Nat
  tx_signature : String
  trade_type : String
  sol_amount : ℚ
  token_amount : ℚ
  supply_percentage : Option ℚ := none
  mcap_at_trade : Option ℚ := none
  block_time : Int
  deriving Repr, DecidableEq

/-- Row of `alerts` (db/models.py, class Alert).  `trigger_data` (an opaque
JSON blob) is omitted. -/
structure Alert where
  id : Nat
  token_id : Nat
  alert_type : String
  total_sol_volume : ℚ := 0
  wallet_count : Nat := 1
  avg_win_rate : ℚ := 0
  max_supply_pct : ℚ := 0
  is_sent : Bool := false
  sent_at : Option Int := none
  created_at : Int
  outcome_pnl : Option ℚ := none
  outcome_checked_at : Option Int := none
  deriving Repr, DecidableEq

/-- Row of `cluster_events` (db/models.py, class ClusterEvent). -/
structure ClusterEvent where
  token_id : Nat
  wallet_addresses : List String
  wallet_count : Nat
  total_sol : ℚ
  first_buy_at : Int
  last_buy_at : Int
  window_seconds : Int
  deriving Repr, DecidableEq

/-- The database session state: one list per table plus fresh-id counters
for the autoincrement primary keys. -/
structure DB where
  wallets : List SmartWallet := []
  tokens : List Token := []
  trades : List Trade := []
  cluster_events : List ClusterEvent := []
  alerts : List Alert := []
  next_token_id : Nat := 1
  next_trade_id : Nat := 1
  deriving Repr, DecidableEq

/-- The signal-related fields of `Settings` (config.py), with their
declared defaults. -/
structure Settings where
  high_conviction_min_sol : ℚ := 1
  high_conviction_min_supply_pct : ℚ := 1/2
  cluster_min_wallets : Nat := 2
  cluster_window_minutes : Int := 5
  cluster_min_sol : ℚ := 1/2
  volume_spike_threshold : ℚ := 1/10
  new_token_max_age_minutes : Int := 60
  deriving Repr, DecidableEq

/-- `WalletRepository.get_by_address` (db/models.py): first wallet row whose
address matches. -/
def get_by_address (db : DB) (address : String) : Option SmartWallet :=
  db.wallets.find? (fun w => w.address == address)

/-- `TradeRepository.get_recent_buys_for_token` (db/models.py): BUY trades on
the token whose block_time is within the trailing window. -/
def get_recent_buys_for_token (db : DB) (now : Int) (token_id : Nat)
    (minutes : Int) : List Trade :=
  let cutoff := now - minutes * 60
  db.trades.filter (fun t =>
    t.token_id == token_id && t.trade_type == "BUY" && decide (cutoff ≤ t.block_time))

/-- `TradeRepository.check_cluster_condition` (db/models.py): recent buys of
at least `min_sol`, from at least `min_wallets` distinct wallet ids. -/
def check_cluster_condition (db : DB) (now : Int) (token_id : Nat)
    (min_wallets : Nat) (window_mins : Int) (min_sol : ℚ) : Bool × List Trade :=
  let trades := get_recent_buys_for_token db now token_id window_mins
  let qualifying := trades.filter (fun t => decide (min_sol ≤ t.sol_amount))
  let unique_wallets := (qualifying.map (fun t => t.wallet_id)).dedup
  (decide (min_wallets ≤ unique_wallets.length), qualifying)

/-- `SignalProcessor._get_or_create_token` (processors/signal_processor.py):
create the token with `launched_at = now` if absent, else refresh
market-cap/supply from truthy arguments. -/
def get_or_create_token (db : DB) (now : Int) (contract_address : String)
    (market_cap total_supply : Option ℚ) : Token × DB :=
  match db.tokens.find? (fun t => t.contract_address == contract_address) with
  | none =>
      let token : Token :=
        { id := db.next_token_id
          contract_address := contract_address
          market_cap_sol := market_cap
          total_supply := total_supply
          platform := "unknown"
          launched_at := some now }
      (token, { db with tokens := db.tokens ++ [token],
                        next_token_id := db.next_token_id + 1 })
  | some t =>
      let t' := { t with
        market_cap_sol := if qTruthy market_cap then market_cap else t.market_cap_sol,
        total_supply := if qTruthy total_supply then total_supply else t.total_supply }
      let tokens' := db.tokens.map
        (fun u => if u.contract_address == contract_address then t' else u)
      (t', { db with tokens := tokens' })

/-- `SignalProcessor._record_trade` (processors/signal_processor.py):
return the existing trade when the tx signature is already present, else
insert a new BUY trade and stamp the wallet's `last_activity`. -/
def record_trade (db : DB) (wallet : SmartWallet) (token : Token)
    (sol_amount token_amount supply_pct : ℚ) (tx_signature : String)
    (block_time : Int) (market_cap : Option ℚ) : Trade × DB :=
  match db.trades.find? (fun t => t.tx_signature == tx_signature) with
  | some existing => (existing, db)
  | none =>
      let trade : Trade :=
        { id := db.next_trade_id
          wallet_id := wallet.id
          token_id := token.id
          tx_signature := tx_signature
          trade_type := "BUY"
          sol_amount := sol_amount
          token_amount := token_amount
          supply_percentage := some supply_pct
          mcap_at_trade := market_cap
          block_time := block_time }
      let wallets' := db.wallets.map (fun w =>
        if w.id == wallet.id then { w with last_activity := some block_time } else w)
      (trade, { db with trades := db.trades ++ [trade],
                        next_trade_id := db.next_trade_id + 1,
                        wallets := wallets' })

/-- `SignalType` (processors/signal_processor.py). -/
inductive SignalType
  | HIGH_CONVICTION
  | CLUSTER_BUY
  | VOLUME_SPIKE
  deriving Repr, DecidableEq

/-- `SignalResult` (processors/signal_processor.py).  Token/trade/wallet
object references become ids; the entries the code writes into the
free-form `details` dict become the `detail_` fields. -/
structure SignalResult where
  triggered : Bool
  signal_type : SignalType
  token_id : Option Nat := none
  trade_ids : List Nat := []
  wallet_ids : List Nat := []
  total_sol : ℚ := 0
  max_supply_pct : ℚ := 0
  detail_sol_amount : ℚ := 0
  detail_supply_pct : ℚ := 0
  detail_wallet_count : Nat := 0
  detail_avg_win_rate : ℚ := 0
  detail_volume_5m_sol : ℚ := 0
  detail_volume_over_mcap : ℚ := 0
  rug_checked : Bool := false
  rug_passed : Bool := true
  deriving Repr, DecidableEq

/-- The boolean trigger expression of `_check_high_conviction`
(processors/signal_processor.py lines 197-200). -/
def high_conviction_cond (s : Settings) (sol_amount supply_pct : ℚ) : Bool :=
  decide (s.high_conviction_min_sol ≤ sol_amount) &&
  decide (s.high_conviction_min_supply_pct ≤ supply_pct)

/-- `SignalProcessor._check_high_conviction`. -/
def check_high_conviction (s : Settings) (wallet : SmartWallet) (trade : Trade)
    (token : Token) (supply_pct sol_amount : ℚ) : SignalResult :=
  { triggered := high_conviction_cond s sol_amount supply_pct
    signal_type := .HIGH_CONVICTION
    token_id := some token.id
    trade_ids := [trade.id]
    wallet_ids := [wallet.id]
    total_sol := sol_amount
    max_supply_pct := supply_pct
    detail_sol_amount := sol_amount
    detail_supply_pct := supply_pct }

/-- Address of the wallet owning a trade (the ORM relationship
`trade.wallet.address`); empty string on a dangling foreign key, which the
ORM schema rules out. -/
def trade_wallet_address (db : DB) (t : Trade) : String :=
  ((db.wallets.find? (fun w => w.id == t.wallet_id)).map (fun w => w.address)).getD ""

/-- Wallet records of a trade list, deduplicated by address in first-seen
order (`_check_cluster_buying` gathering loop). -/
def gather_cluster_wallets (db : DB) (trades : List Trade) : List SmartWallet :=
  trades.foldl (fun acc t =>
    match db.wallets.find? (fun w => w.id == t.wallet_id) with
    | none => acc
    | some w => if acc.any (fun x => x.address == w.address) then acc else acc ++ [w]) []

/-- `SignalProcessor._record_cluster_event`. -/
def record_cluster_event (db : DB) (token : Token) (trades : List Trade) : DB :=
  let addresses := (trades.map (fun t => trade_wallet_address db t)).dedup
  let block_times := trades.map (fun t => t.block_time)
  let first_at := block_times.foldl min (block_times.headD 0)
  let last_at := block_times.foldl max (block_times.headD 0)
  let cluster : ClusterEvent :=
    { token_id := token.id
      wallet_addresses := addresses
      wallet_count := addresses.length
      total_sol := (trades.map (fun t => t.sol_amount)).sum
      first_buy_at := first_at
      last_buy_at := last_at
      window_seconds := last_at - first_at }
  { db with cluster_events := db.cluster_events ++ [cluster] }

/-- `SignalProcessor._check_cluster_buying`: evaluate the cluster condition
and, on trigger, persist a ClusterEvent snapshot. -/
def check_cluster_buying (s : Settings) (db : DB) (now : Int) (token : Token) :
    SignalResult × DB :=
  let res := check_cluster_condition db now token.id
    s.cluster_min_wallets s.cluster_window_minutes s.cluster_min_sol
  if res.1 then
    let trades := res.2
    let wallets := gather_cluster_wallets db trades
    let total_sol := (trades.map (fun t => t.sol_amount)).sum
    let max_supply := trades.foldl (fun m t => max m (t.supply_percentage.getD 0)) 0
    let db' := record_cluster_event db token trades
    ({ triggered := true
       signal_type := .CLUSTER_BUY
       token_id := some token.id
       trade_ids := trades.map (fun t => t.id)
       wallet_ids := wallets.map (fun w => w.id)
       total_sol := total_sol
       max_supply_pct := max_supply
       detail_wallet_count := wallets.length
       detail_avg_win_rate := (wallets.map (fun w => w.win_rate)).sum / wallets.length }, db')
  else
    ({ triggered := false, signal_type := .CLUSTER_BUY }, db)

/-- `SignalProcessor._check_volume_spike`: not triggered past the max token
age or when market cap is unknown or nonpositive; else compare trailing
5-minute buy volume over market cap with the threshold. -/
def check_volume_spike (s : Settings) (db : DB) (now : Int) (token : Token) :
    SignalResult :=
  if ((s.new_token_max_age_minutes : ℚ)) < token.age_minutes now then
    { triggered := false, signal_type := .VOLUME_SPIKE }
  else
    let five_min_ago := now - 5 * 60
    let recent_trades := db.trades.filter (fun t =>
      t.token_id == token.id && t.trade_type == "BUY" && decide (five_min_ago ≤ t.block_time))
    let volume_5m := (recent_trades.map (fun t => t.sol_amount)).sum
    let market_cap := token.market_cap_sol.getD 0
    if market_cap ≤ 0 then
      { triggered := false, signal_type := .VOLUME_SPIKE }
    else
      let quotient := volume_5m / market_cap
      { triggered := decide (s.volume_spike_threshold ≤ quotient)
        signal_type := .VOLUME_SPIKE
        token_id := some token.id
        trade_ids := recent_trades.map (fun t => t.id)
        total_sol := volume_5m
        detail_volume_5m_sol := volume_5m
        detail_volume_over_mcap := quotient }

/-- `supply_pct` computation of `process_buy_event` lines 147-149:
`token_amount / total_supply * 100` when total_supply is truthy and
positive, else 0. -/
def compute_supply_pct (token_amount : ℚ) (total_supply : Option ℚ) : ℚ :=
  match total_supply with
  | some ts => if 0 < ts then token_amount / ts * 100 else 0
  | none => 0

/-- Arguments of `process_buy_event`. -/
structure BuyEvent where
  wallet_address : String
  token_ca : String
  sol_amount : ℚ
  token_amount : ℚ
  tx_signature : String
  block_time : Int
  market_cap : Option ℚ := none
  total_supply : Option ℚ := none
  deriving Repr, DecidableEq

/-- `SignalProcessor.process_buy_event`: the full pipeline — unknown wallet
short-circuit, token upsert, supply percentage, trade recording, then the
three signal checks (volume spike gated on token age). -/
def process_buy_event (s : Settings) (db : DB) (now : Int) (e : BuyEvent) :
    List SignalResult × DB :=
  match get_by_address db e.wallet_address with
  | none => ([], db)
  | some wallet =>
    let tokdb := get_or_create_token db now e.token_ca e.market_cap e.total_supply
    let token := tokdb.1
    let supply_pct := compute_supply_pct e.token_amount e.total_supply
    let trdb := record_trade tokdb.2 wallet token e.sol_amount e.token_amount
      supply_pct e.tx_signature e.block_time e.market_cap
    let trade := trdb.1
    let db2 := trdb.2
    let hc := check_high_conviction s wallet trade token supply_pct e.sol_amount
    let signals1 := if hc.triggered then [hc] else []
    let cl := check_cluster_buying s db2 now token
    let db3 := cl.2
    let signals2 := signals1 ++ (if cl.1.triggered then [cl.1] else [])
    let signals3 :=
      if token.age_minutes now ≤ (s.new_token_max_age_minutes : ℚ) then
        let vs := check_volume_spike s db3 now token
        signals2 ++ (if vs.triggered then [vs] else [])
      else signals2
    (signals3, db3)

/-!
Conviction calculator (services/conviction_calculator.py).

`_calculate_consistency` takes a floating-point square root
(`variance ** 0.5`); the embedding abstracts it as an arbitrary function
`sqrtFn : ℚ → ℚ`, which every theorem below quantifies over.
-/

/-- Weight constants of `ConvictionCalculator`. -/
def WEIGHT_WIN_RATE : ℚ := 30

/-- Consistency weight. -/
def WEIGHT_CONSISTENCY : ℚ := 20

/-- Frequency weight. -/
def WEIGHT_FREQUENCY : ℚ := 15

/-- PnL weight. -/
def WEIGHT_PNL : ℚ := 15

/-- Early-entry weight. -/
def WEIGHT_EARLY_ENTRY : ℚ := 10

/-- Rug-avoidance weight. -/
def WEIGHT_RUG_AVOIDANCE : ℚ := 10

/-- `ConvictionCalculator._score_win_rate`. -/
def score_win_rate (win_rate : ℚ) : ℚ :=
  if win_rate ≤ 50 then 0 else (win_rate - 50) / 50 * WEIGHT_WIN_RATE

/-- `ConvictionCalculator._score_consistency`. -/
def score_consistency (consistency_score : ℚ) : ℚ :=
  consistency_score / 100 * WEIGHT_CONSISTENCY

/-- `ConvictionCalculator._score_frequency` (the `trades_30d` argument is
unused by the code and omitted). -/
def score_frequency (trades_7d : Nat) : ℚ :=
  min 1 ((trades_7d : ℚ) / 10) * WEIGHT_FREQUENCY

/-- `ConvictionCalculator._score_pnl` (the `pnl_7d` argument is unused by
the code and omitted). -/
def score_pnl (pnl_total : ℚ) : ℚ :=
  if pnl_total ≤ 0 then 0 else min 1 (pnl_total / 100) * WEIGHT_PNL

/-- `ConvictionCalculator._score_early_entry`. -/
def score_early_entry (early_rate : ℚ) : ℚ :=
  min 1 (early_rate / 50) * WEIGHT_EARLY_ENTRY

/-- `ConvictionCalculator._score_rug_avoidance`. -/
def score_rug_avoidance (avoidance_rate : ℚ) : ℚ :=
  if avoidance_rate ≤ 50 then 0 else (avoidance_rate - 50) / 50 * WEIGHT_RUG_AVOIDANCE

/-- Per-token realized PnL (sells minus buys) of a trade list, one entry per
distinct token id in first-seen order (`_calculate_consistency` dict loop;
any non-BUY trade counts on the sell side). -/
def pnls_by_token (trades : List Trade) : List ℚ :=
  let token_ids := (trades.map (fun t => t.token_id)).dedup
  token_ids.map (fun tid =>
    let ts := trades.filter (fun t => t.token_id == tid)
    ((ts.filter (fun t => !(t.trade_type == "BUY"))).map (fun t => t.sol_amount)).sum
      - ((ts.filter (fun t => t.trade_type == "BUY")).map (fun t => t.sol_amount)).sum)

/-- `ConvictionCalculator._calculate_consistency`: coefficient of variation
of per-token PnL converted to a 0-100 score, defaulting to 50 with fewer
than 3 tokens or a zero mean. -/
def calculate_consistency (sqrtFn : ℚ → ℚ) (db : DB) (wallet : SmartWallet) : ℚ :=
  let trades := db.trades.filter (fun t => t.wallet_id == wallet.id)
  let pnls := pnls_by_token trades
  if pnls.length < 3 then 50
  else
    let avg_pnl := pnls.sum / pnls.length
    if avg_pnl = 0 then 50
    else
      let variance := (pnls.map (fun p => (p - avg_pnl) * (p - avg_pnl))).sum / pnls.length
      let std_dev := sqrtFn variance
      let cv := |std_dev / avg_pnl|
      max 0 (100 - cv * 50)

/-- The metrics record built by `ConvictionCalculator._gather_metrics`
(fields the scorer does not read are omitted). -/
structure WalletMetrics where
  win_rate : ℚ
  trades_7d : Nat
  trades_30d : Nat
  pnl_total_sol : ℚ
  pnl_7d_sol : ℚ
  consistency_score : ℚ
  early_entry_rate : ℚ
  rug_avoidance_rate : ℚ
  deriving Repr, DecidableEq

/-- `ConvictionCalculator._gather_metrics`.  Note the rugged-token count is,
as in the source, a count of trade rows (from any wallet) on rugged tokens
in the traded set, not a count of distinct tokens. -/
def gather_metrics (sqrtFn : ℚ → ℚ) (db : DB) (now : Int) (wallet : SmartWallet) :
    WalletMetrics :=
  let all_trades := db.trades.filter (fun t => t.wallet_id == wallet.id)
  let seven_days_ago := now - 7 * 86400
  let thirty_days_ago := now - 30 * 86400
  let trades_7d := all_trades.filter (fun t => decide (seven_days_ago ≤ t.block_time))
  let trades_30d := all_trades.filter (fun t => decide (thirty_days_ago ≤ t.block_time))
  let buy_trades := all_trades.filter (fun t => t.trade_type == "BUY")
  let early_entries := buy_trades.countP (fun t =>
    match (db.tokens.find? (fun tok => tok.id == t.token_id)).bind (fun tok => tok.launched_at) with
    | some l => decide ((((t.block_time - l : Int)) : ℚ) / 60 ≤ 30)
    | none => false)
  let early_entry_rate :=
    if buy_trades.length = 0 then 0
    else (early_entries : ℚ) / buy_trades.length * 100
  let tokens_traded := (buy_trades.map (fun t => t.token_id)).dedup
  let rugged_tokens := db.trades.countP (fun t =>
    tokens_traded.contains t.token_id &&
    ((db.tokens.find? (fun tok => tok.id == t.token_id)).map (fun tok => tok.is_rugged)).getD false)
  let rug_avoidance :=
    if tokens_traded.length = 0 then 100
    else ((tokens_traded.length : ℚ) - rugged_tokens) / tokens_traded.length * 100
  { win_rate := wallet.win_rate
    trades_7d := trades_7d.length
    trades_30d := trades_30d.length
    pnl_total_sol := wallet.pnl_total_sol
    pnl_7d_sol := wallet.pnl_7d_sol
    consistency_score := calculate_consistency sqrtFn db wallet
    early_entry_rate := early_entry_rate
    rug_avoidance_rate := rug_avoidance }

/-- `ConvictionCalculator.calculate_score`: sum of the six component scores,
clamped to [0, 100]. -/
def calculate_score (sqrtFn : ℚ → ℚ) (db : DB) (now : Int) (wallet : SmartWallet) : ℚ :=
  let m := gather_metrics sqrtFn db now wallet
  let total :=
    score_win_rate m.win_rate +
    score_consistency m.consistency_score +
    score_frequency m.trades_7d +
    score_pnl m.pnl_total_sol +
    score_early_entry m.early_entry_rate +
    score_rug_avoidance m.rug_avoidance_rate
  min 100 (max 0 total)

/-!
Outcome tracker (services/outcome_tracker.py).
-/

/-- `OutcomeStatus` (services/outcome_tracker.py). -/
inductive OutcomeStatus
  | PENDING
  | WINNER
  | LOSER
  | RUGGED
  | UNKNOWN
  deriving Repr, DecidableEq

/-- `OutcomeTracker.WIN_THRESHOLD_PCT`. -/
def WIN_THRESHOLD_PCT : ℚ := 20

/-- `OutcomeTracker.LOSS_THRESHOLD_PCT`. -/
def LOSS_THRESHOLD_PCT : ℚ := -30

/-- `OutcomeTracker.RUG_THRESHOLD_PCT`. -/
def RUG_THRESHOLD_PCT : ℚ := -80

/-- The status if-chain of `check_alert_outcome` (lines 142-154): pending
under 30 minutes of age, then rugged / winner / loser by thresholds, else
pending. -/
def outcome_status_for (alert_age_mins return_pct : ℚ) : OutcomeStatus :=
  if alert_age_mins < 30 then .PENDING
  else if return_pct ≤ RUG_THRESHOLD_PCT then .RUGGED
  else if WIN_THRESHOLD_PCT ≤ return_pct then .WINNER
  else if return_pct ≤ LOSS_THRESHOLD_PCT then .LOSER
  else .PENDING

/-- The fields of `TokenMetadata` (services/token_metadata.py) read by the
outcome tracker. -/
structure TokenMeta where
  price_usd : ℚ := 0
  total_supply : ℚ := 0
  deriving Repr, DecidableEq

/-- `AlertOutcome` (services/outcome_tracker.py); the placeholder
ATH/time-to-ATH fields are kept as computed. -/
structure AlertOutcome where
  alert_id : Nat
  token_ca : String
  status : OutcomeStatus
  price_at_alert : ℚ
  price_current : ℚ
  price_ath : ℚ
  return_pct : ℚ
  ath_return_pct : ℚ
  alert_age_mins : ℚ
  deriving Repr, DecidableEq

/-- `OutcomeTracker.check_alert_outcome`: price reconstruction, return
percentage, status classification, the one-way `is_rugged` flag on the
rugged branch, and the unconditional write of the alert's `outcome_pnl`
and `outcome_checked_at`.  Returns the outcome together with the updated
alert and token rows. -/
def check_alert_outcome (dbTrades : List Trade) (meta : TokenMeta)
    (alert : Alert) (token : Token) (now : Int) : AlertOutcome × Alert × Token :=
  let alert_age_mins : ℚ := ((now - alert.created_at : Int) : ℚ) / 60
  let current_price := meta.price_usd
  let trigger_trades := dbTrades.filter (fun t =>
    t.token_id == token.id &&
    decide (alert.created_at - 60 ≤ t.block_time) &&
    decide (t.block_time ≤ alert.created_at + 60))
  let price_at_alert :=
    match trigger_trades.head? with
    | some t0 =>
        if qTruthy t0.mcap_at_trade then
          (t0.mcap_at_trade.getD 0) / (if meta.total_supply = 0 then 1 else meta.total_supply)
        else current_price
    | none => current_price
  let return_pct :=
    if 0 < price_at_alert then (current_price - price_at_alert) / price_at_alert * 100 else 0
  let price_ath := max current_price (price_at_alert * (3/2))
  let ath_return_pct :=
    if 0 < price_at_alert then (price_ath - price_at_alert) / price_at_alert * 100 else 0
  let status := outcome_status_for alert_age_mins return_pct
  let token' := if status = OutcomeStatus.RUGGED then { token with is_rugged := true } else token
  let alert' := { alert with outcome_pnl := some return_pct, outcome_checked_at := some now }
  ({ alert_id := alert.id
     token_ca := token.contract_address
     status := status
     price_at_alert := price_at_alert
     price_current := current_price
     price_ath := price_ath
     return_pct := return_pct
     ath_return_pct := ath_return_pct
     alert_age_mins := alert_age_mins }, alert', token')

/-- The selection predicate of `check_pending_alerts` (lines 184-190):
created at least 30 minutes ago, and never outcome-checked or last checked
more than 4 hours ago. -/
def alert_needs_check (now : Int) (a : Alert) : Bool :=
  decide (a.created_at ≤ now - 30 * 60) &&
  (a.outcome_checked_at.isNone ||
   decide (a.outcome_checked_at.getD 0 ≤ now - 4 * 3600))

/-- One iteration of the `check_pending_alerts` loop: look up the alert's
token (a failure is caught, logged and skipped in the source, modeled as a
no-op) and persist the updated alert and token rows. -/
def run_alert_check (metaOf : String → TokenMeta) (db : DB) (now : Int) (a : Alert) : DB :=
  match db.tokens.find? (fun tok => tok.id == a.token_id) with
  | none => db
  | some tok =>
    let r := check_alert_outcome db.trades (metaOf tok.contract_address) a tok now
    { db with alerts := db.alerts.map (fun x => if x.id == a.id then r.2.1 else x),
              tokens := db.tokens.map (fun x => if x.id == tok.id then r.2.2 else x) }

/-- `OutcomeTracker.check_pending_alerts`: select up to 50 alerts matching
`alert_needs_check` and run the outcome check on each in turn.  Metadata
lookups are abstracted as the function `metaOf` from contract address to
`TokenMeta`. -/
def check_pending_alerts (metaOf : String → TokenMeta) (db : DB) (now : Int) : DB :=
  let selected := (db.alerts.filter (fun a => alert_needs_check now a)).take 50
  selected.foldl (fun acc a => run_alert_check metaOf acc now a) db

/-- `PerformanceStats` (services/outcome_tracker.py). -/
structure PerformanceStats where
  total_alerts : Nat := 0
  winners : Nat := 0
  losers : Nat := 0
  rugged : Nat := 0
  pending : Nat := 0
  win_rate : ℚ := 0
  avg_return_pct : ℚ := 0
  avg_loss_pct : ℚ := 0
  best_return_pct : ℚ := 0
  worst_loss_pct : ℚ := 0
  high_conviction_win_rate : ℚ := 0
  cluster_buy_win_rate : ℚ := 0
  volume_spike_win_rate : ℚ := 0
  deriving Repr, DecidableEq

/-- The outcome PnL of an alert; the callers below only apply it to alerts
whose `outcome_pnl` is non-null, matching the SQL filter. -/
def pnl_of (a : Alert) : ℚ := a.outcome_pnl.getD 0

/-- The inner `win_rate_for_type` closure of `get_performance_stats`:
winners over (losers-by-threshold plus winners) for one alert type. -/
def win_rate_for_type (alerts : List Alert) (alert_type : String) : ℚ :=
  let type_alerts := alerts.filter (fun a => a.alert_type == alert_type)
  let type_winners := type_alerts.filter (fun a => decide (WIN_THRESHOLD_PCT ≤ pnl_of a))
  let type_resolved :=
    (type_alerts.filter (fun a => decide (pnl_of a ≤ LOSS_THRESHOLD_PCT))).length +
    type_winners.length
  if 0 < type_resolved then (type_winners.length : ℚ) / type_resolved * 100 else 0

/-- `OutcomeTracker.get_performance_stats`: aggregate stats over alerts
created within the trailing `days` window whose `outcome_pnl` is non-null. -/
def get_performance_stats (db : DB) (now : Int) (days : Int) : PerformanceStats :=
  let cutoff := now - days * 86400
  let alerts := db.alerts.filter (fun a =>
    decide (cutoff ≤ a.created_at) && a.outcome_pnl.isSome)
  if alerts.isEmpty then {}
  else
    let winners := alerts.filter (fun a => decide (WIN_THRESHOLD_PCT ≤ pnl_of a))
    let losers := alerts.filter (fun a => decide (pnl_of a ≤ LOSS_THRESHOLD_PCT))
    let rugged := alerts.filter (fun a => decide (pnl_of a ≤ RUG_THRESHOLD_PCT))
    let resolved := winners.length + losers.length
    let win_rate := if 0 < resolved then (winners.length : ℚ) / resolved * 100 else 0
    let winner_returns := winners.map pnl_of
    let loser_returns := losers.map pnl_of
    let avg_return :=
      if winner_returns.isEmpty then 0 else winner_returns.sum / winner_returns.length
    let avg_loss :=
      if loser_returns.isEmpty then 0 else loser_returns.sum / loser_returns.length
    let all_returns := alerts.map pnl_of
    let best := all_returns.foldl max (all_returns.headD 0)
    let worst := all_returns.foldl min (all_returns.headD 0)
    let pending_count := (db.alerts.filter (fun a =>
      decide (cutoff ≤ a.created_at) && a.outcome_pnl.isNone)).length
    { total_alerts := alerts.length + pending_count
      winners := winners.length
      losers := losers.length
      rugged := rugged.length
      pending := pending_count
      win_rate := win_rate
      avg_return_pct := avg_return
      avg_loss_pct := avg_loss
      best_return_pct := best
      worst_loss_pct := worst
      high_conviction_win_rate := win_rate_for_type alerts "high_conviction"
      cluster_buy_win_rate := win_rate_for_type alerts "cluster_buy"
      volume_spike_win_rate := win_rate_for_type alerts "volume_spike" }

/-- Modelled from the spec: the claim's reading of the overall win rate,
in which "loser" is the LOSER class of the outcome thresholds and RUGGED is
a distinct terminal class, so rugged alerts (return ≤ -80) are excluded
from the resolved denominator. -/
def spec_win_rate_rugged_distinct (alerts : List Alert) : ℚ :=
  let winners := alerts.filter (fun a => decide (WIN_THRESHOLD_PCT ≤ pnl_of a))
  let losers := alerts.filter (fun a =>
    decide (pnl_of a ≤ LOSS_THRESHOLD_PCT) && decide (RUG_THRESHOLD_PCT < pnl_of a))
  let resolved := winners.length + losers.length
  if 0 < resolved then (winners.length : ℚ) / resolved * 100 else 0

/-!
Backtester (services/backtester.py).  The claims below concern
`_calculate_stats`, which aggregates a list of simulated trades; a
`BacktestTrade` is embedded with the numeric fields the aggregation reads
(`pnl_sol` is set by `_simulate_trade` to
`position_size_sol * pnl_pct / 100`).  Python's `float('inf')` profit
factor is modeled as `none : Option ℚ`.
-/

/-- `BacktestTrade` (services/backtester.py), restricted to the fields
`_calculate_stats` reads. -/
structure BacktestTrade where
  signal_type : SignalType
  entry_time : Int
  position_size_sol : ℚ := 1
  pnl_sol : ℚ := 0
  pnl_pct : ℚ := 0
  deriving Repr, DecidableEq

/-- The summary-stat fields of `BacktestResult` filled by
`_calculate_stats`; `profit_factor = none` models `float('inf')`. -/
structure BacktestStats where
  total_trades : Nat := 0
  winning_trades : Nat := 0
  losing_trades : Nat := 0
  win_rate : ℚ := 0
  total_pnl_sol : ℚ := 0
  total_pnl_pct : ℚ := 0
  avg_pnl_pct : ℚ := 0
  best_trade_pct : ℚ := 0
  worst_trade_pct : ℚ := 0
  max_drawdown_pct : ℚ := 0
  profit_factor : Option ℚ := some 0
  deriving Repr, DecidableEq

/-- Gross profit of `_calculate_stats`: sum of positive per-trade SOL PnL. -/
def gross_profit (trades : List BacktestTrade) : ℚ :=
  ((trades.filter (fun t => decide (0 < t.pnl_sol))).map (fun t => t.pnl_sol)).sum

/-- Gross loss of `_calculate_stats`: absolute sum of negative per-trade
SOL PnL. -/
def gross_loss (trades : List BacktestTrade) : ℚ :=
  |((trades.filter (fun t => decide (t.pnl_sol < 0))).map (fun t => t.pnl_sol)).sum|

/-- `Backtester._calculate_stats`: no-op on an empty trade list (the result
keeps its defaults), else win/loss counts, PnL aggregates, profit factor
and peak-to-trough max drawdown. -/
def calculate_stats (trades : List BacktestTrade) : BacktestStats :=
  if trades.isEmpty then {}
  else
    let total_trades := trades.length
    let winning_trades := trades.countP (fun t => decide (0 < t.pnl_pct))
    let losing_trades := trades.countP (fun t => decide (t.pnl_pct ≤ 0))
    let win_rate := (winning_trades : ℚ) / total_trades * 100
    let pnls := trades.map (fun t => t.pnl_pct)
    let total_pnl_sol := (trades.map (fun t => t.pnl_sol)).sum
    let total_pnl_pct := pnls.sum
    let avg_pnl_pct := total_pnl_pct / total_trades
    let best_trade_pct := pnls.foldl max (pnls.headD 0)
    let worst_trade_pct := pnls.foldl min (pnls.headD 0)
    let gp := gross_profit trades
    let gl := gross_loss trades
    let profit_factor := if 0 < gl then some (gp / gl) else none
    let dd := trades.foldl (fun acc t =>
      let cumulative := acc.1 + t.pnl_pct
      let peak := max acc.2.1 cumulative
      (cumulative, peak, max acc.2.2 (peak - cumulative))) ((0 : ℚ), (0 : ℚ), (0 : ℚ))
    { total_trades := total_trades
      winning_trades := winning_trades
      losing_trades := losing_trades
      win_rate := win_rate
      total_pnl_sol := total_pnl_sol
      total_pnl_pct := total_pnl_pct
      avg_pnl_pct := avg_pnl_pct
      best_trade_pct := best_trade_pct
      worst_trade_pct := worst_trade_pct
      max_drawdown_pct := dd.2.2
      profit_factor := profit_factor }

/-- Concrete wallet used by witnesses. -/
def wallet_fix : SmartWallet := { id := 1, address := "W", win_rate := 70, trades_7d := 12 }

/-- Concrete one-wallet database used by witnesses. -/
def db_fix : DB := { wallets := [wallet_fix] }

/-- Concrete high-conviction buy event used by witnesses: 1.5 SOL for 0.8%
of a 1,000,000-token supply. -/
def buy_fix : BuyEvent :=
  { wallet_address := "W", token_ca := "T", sol_amount := 3/2, token_amount := 8000,
    tx_signature := "SIG", block_time := 1000, total_supply := some 1000000 }

/-- Concrete young token with a 100-SOL market cap for the C7 witness. -/
def token_fix : Token :=
  { id := 1, contract_address := "T", market_cap_sol := some 100, launched_at := some 0 }

/-- Concrete database for the C7 witness: one 12-SOL buy on a 45-minute-old
token with market cap 100, checked at `now = 2700`. -/
def db_volume_fix : DB :=
  { tokens := [token_fix]
    trades := [{ id := 1, wallet_id := 1, token_id := 1, tx_signature := "SV",
                 trade_type := "BUY", sol_amount := 12, token_amount := 1000,
                 block_time := 2500 }] }

/-- Concrete alert for the C4 witness, created at time 0. -/
def alert_rug_fix : Alert := { id := 1, token_id := 1, alert_type := "high_conviction", created_at := 0 }

/-- Concrete token for the C4 witness. -/
def token_rug_fix : Token := { id := 1, contract_address := "TR" }

/-- Concrete trigger trade for the C4 witness: market cap 100 at trade time. -/
def trade_rug_fix : Trade :=
  { id := 1, wallet_id := 1, token_id := 1, tx_signature := "SR", trade_type := "BUY",
    sol_amount := 1, token_amount := 1, mcap_at_trade := some 100, block_time := 0 }

/-- Concrete metadata for the C4 witness: current price 0.015 against an
alert price of 0.1, a return of -85%. -/
def meta_rug_fix : TokenMeta := { price_usd := 3/200, total_supply := 1000 }

/-- Winning backtest trade for the C10 witness. -/
def bt_win_fix : BacktestTrade :=
  { signal_type := .HIGH_CONVICTION, entry_time := 0, position_size_sol := 1,
    pnl_sol := 1/2, pnl_pct := 50 }

/-- Losing backtest trade for the C10 witness. -/
def bt_loss_fix : BacktestTrade :=
  { signal_type := .CLUSTER_BUY, entry_time := 0, position_size_sol := 1,
    pnl_sol := -1/4, pnl_pct := -25 }

/-- Concrete 10-minute-old alert with null outcome fields for the C2
counterexample. -/
def alert_young_fix : Alert :=
  { id := 2, token_id := 1, alert_type := "high_conviction", created_at := 0 }

/-- Concrete metadata for the C2 counterexample. -/
def meta_young_fix : TokenMeta := { price_usd := 10, total_supply := 0 }

/-- The alert population of `get_performance_stats`: alerts created within
the trailing window whose outcome has been recorded. -/
def windowed_checked_alerts (db : DB) (now days : Int) : List Alert :=
  db.alerts.filter (fun a =>
    decide (now - days * 86400 ≤ a.created_at) && a.outcome_pnl.isSome)

/-- Number of alerts at or above the winner threshold. -/
def count_winners (alerts : List Alert) : Nat :=
  (alerts.filter (fun a => decide (WIN_THRESHOLD_PCT ≤ pnl_of a))).length

/-- Number of alerts at or below the loser threshold (this includes every
rugged alert, since -80 ≤ -30). -/
def count_losers_threshold (alerts : List Alert) : Nat :=
  (alerts.filter (fun a => decide (pnl_of a ≤ LOSS_THRESHOLD_PCT))).length

/-- Winner alert (return +50%) for the C9 counterexample. -/
def alert_winner_fix : Alert :=
  { id := 1, token_id := 1, alert_type := "high_conviction", created_at := 0,
    outcome_pnl := some 50 }

/-- Rugged alert (return -90%) for the C9 counterexample. -/
def alert_rugged_fix : Alert :=
  { id := 2, token_id := 1, alert_type := "high_conviction", created_at := 0,
    outcome_pnl := some (-90) }

/-- Two-alert database (one winner, one rugged) for the C9 counterexample. -/
def db_stats_fix : DB := { alerts := [alert_winner_fix, alert_rugged_fix] }

/-!
Helper lemmas.
-/

/-- Any over an if-guarded singleton. -/
theorem list_any_guard_singleton (c : Bool) (x : SignalResult) (p : SignalResult → Bool) :
    ((if c = true then [x] else []).any p) = (c && p x) := by
  cases c <;> simp

/-- The signal produced by the cluster check is tagged CLUSTER_BUY. -/
theorem cluster_signal_type (s : Settings) (db : DB) (now : Int) (token : Token) :
    (check_cluster_buying s db now token).1.signal_type = SignalType.CLUSTER_BUY := by
  unfold check_cluster_buying
  dsimp only
  split <;> rfl

/-- The signal produced by the volume-spike check is tagged VOLUME_SPIKE. -/
theorem volume_signal_type (s : Settings) (db : DB) (now : Int) (token : Token) :
    (check_volume_spike s db now token).signal_type = SignalType.VOLUME_SPIKE := by
  unfold check_volume_spike
  dsimp only
  split
  · rfl
  · split <;> rfl

/-- C5: a buy event whose wallet address has no wallet row is a silent
no-op: `process_buy_event` returns the empty signal list and leaves the
whole database state — trades, tokens, cluster events and alerts —
unchanged. -/
theorem C5_unknown_wallet_noop (s : Settings) (db : DB) (now : Int) (e : BuyEvent)
    (h : get_by_address db e.wallet_address = none) :
    process_buy_event s db now e = ([], db) := by
  unfold process_buy_event
  rw [h]

/-- Witness for C5 at a concrete empty database. -/
theorem C5_unknown_wallet_noop_witness :
    get_by_address ({} : DB) "W1" = none ∧
    process_buy_event ({} : Settings) ({} : DB) 0
      { wallet_address := "W1", token_ca := "T1", sol_amount := 1, token_amount := 1,
        tx_signature := "S1", block_time := 0 } = ([], ({} : DB)) :=
  ⟨rfl, C5_unknown_wallet_noop ({} : Settings) ({} : DB) 0
    { wallet_address := "W1", token_ca := "T1", sol_amount := 1, token_amount := 1,
      tx_signature := "S1", block_time := 0 } rfl⟩

/-- C3: for a buy event from a known wallet, a HIGH_CONVICTION signal is in
the output exactly when `sol_amount` meets `high_conviction_min_sol`
(default 1.0) and the computed supply percentage meets
`high_conviction_min_supply_pct` (default 0.5); and the trigger condition
is monotone in each of the two quantities separately. -/
theorem C3_high_conviction_iff_and_monotone (s : Settings) (db : DB) (now : Int)
    (e : BuyEvent) (wallet : SmartWallet)
    (h : get_by_address db e.wallet_address = some wallet) :
    (((process_buy_event s db now e).1.any
        (fun r => r.signal_type == SignalType.HIGH_CONVICTION))
      = high_conviction_cond s e.sol_amount
          (compute_supply_pct e.token_amount e.total_supply))
    ∧ (∀ sol sol' pct : ℚ, sol ≤ sol' →
        high_conviction_cond s sol pct = true → high_conviction_cond s sol' pct = true)
    ∧ (∀ sol pct pct' : ℚ, pct ≤ pct' →
        high_conviction_cond s sol pct = true → high_conviction_cond s sol pct' = true)
    ∧ ({} : Settings).high_conviction_min_sol = 1
    ∧ ({} : Settings).high_conviction_min_supply_pct = 1/2 := by
  refine ⟨?_, ?_, ?_, rfl, rfl⟩
  · unfold process_buy_event
    rw [h]
    dsimp only
    split <;>
      simp [List.any_append, list_any_guard_singleton, cluster_signal_type,
            volume_signal_type, check_high_conviction]
  · intro sol sol' pct hle htr
    simp only [high_conviction_cond, Bool.and_eq_true, decide_eq_true_eq] at htr ⊢
    exact ⟨le_trans htr.1 hle, htr.2⟩
  · intro sol pct pct' hle htr
    simp only [high_conviction_cond, Bool.and_eq_true, decide_eq_true_eq] at htr ⊢
    exact ⟨htr.1, le_trans htr.2 hle⟩

/-- Witness for C3: the concrete scenario of the spec (1.5 SOL, 0.8% of
supply) evaluated through the theorem. -/
theorem C3_high_conviction_witness :
    (((process_buy_event ({} : Settings) db_fix 1000 buy_fix).1.any
        (fun r => r.signal_type == SignalType.HIGH_CONVICTION))
      = high_conviction_cond ({} : Settings) buy_fix.sol_amount
          (compute_supply_pct buy_fix.token_amount buy_fix.total_supply))
    ∧ high_conviction_cond ({} : Settings) buy_fix.sol_amount
        (compute_supply_pct buy_fix.token_amount buy_fix.total_supply) = true :=
  ⟨(C3_high_conviction_iff_and_monotone ({} : Settings) db_fix 1000 buy_fix
      wallet_fix rfl).1, by with_unfolding_all decide⟩

/-- C7: the volume-spike check triggers exactly when the token is within
the max age, the market cap is known and positive, and the trailing
5-minute buy volume over market cap meets the threshold (so an unknown or
nonpositive market cap degrades to not-triggered); and in
`process_buy_event` a VOLUME_SPIKE signal only ever appears when the
processed token's age is within `new_token_max_age_minutes`. -/
theorem C7_volume_spike_iff (s : Settings) (db : DB) (now : Int) (token : Token) :
    (((check_volume_spike s db now token).triggered = true) ↔
      (token.age_minutes now ≤ (s.new_token_max_age_minutes : ℚ) ∧
       0 < token.market_cap_sol.getD 0 ∧
       s.volume_spike_threshold ≤
         ((db.trades.filter (fun t => t.token_id == token.id && t.trade_type == "BUY" &&
             decide (now - 5 * 60 ≤ t.block_time))).map (fun t => t.sol_amount)).sum
           / token.market_cap_sol.getD 0))
    ∧ (∀ (e : BuyEvent) (r : SignalResult), r ∈ (process_buy_event s db now e).1 →
        r.signal_type = SignalType.VOLUME_SPIKE →
        (get_or_create_token db now e.token_ca e.market_cap e.total_supply).1.age_minutes now
          ≤ (s.new_token_max_age_minutes : ℚ)) := by
  constructor
  · unfold check_volume_spike
    dsimp only
    split
    · rename_i hage
      refine iff_of_false (by simp) ?_
      rintro ⟨hle, -, -⟩
      exact absurd hle (not_le.mpr hage)
    · rename_i hage
      split
      · rename_i hmc
        refine iff_of_false (by simp) ?_
        rintro ⟨-, hpos, -⟩
        exact absurd hpos (not_lt.mpr hmc)
      · rename_i hmc
        simp only [decide_eq_true_eq]
        constructor
        · intro hq
          exact ⟨not_lt.mp hage, not_le.mp hmc, hq⟩
        · rintro ⟨-, -, hq⟩
          exact hq
  · intro e r hr htype
    unfold process_buy_event at hr
    cases hfind : get_by_address db e.wallet_address with
    | none => rw [hfind] at hr; simp at hr
    | some w =>
      rw [hfind] at hr
      dsimp only at hr
      by_cases hage : (get_or_create_token db now e.token_ca e.market_cap e.total_supply).1.age_minutes now
          ≤ (s.new_token_max_age_minutes : ℚ)
      · exact hage
      · rw [if_neg hage] at hr
        exfalso
        rcases List.mem_append.mp hr with h1 | h2
        · split at h1
          · simp only [List.mem_singleton] at h1
            rw [h1] at htype
            exact absurd htype (by simp [check_high_conviction])
          · simp at h1
        · split at h2
          · simp only [List.mem_singleton] at h2
            rw [h2] at htype
            rw [cluster_signal_type] at htype
            exact absurd htype (by simp)
          · simp at h2

/-- Witness for C7: the spec scenario (token age 45 min, 5-min volume 12
SOL, market cap 100) triggers through the theorem. -/
theorem C7_volume_spike_witness :
    (check_volume_spike ({} : Settings) db_volume_fix 2700 token_fix).triggered = true :=
  (C7_volume_spike_iff ({} : Settings) db_volume_fix 2700 token_fix).1.mpr
    ⟨by norm_num [Token.age_minutes, token_fix], by norm_num [token_fix],
     by norm_num [db_volume_fix, token_fix]⟩

/-- C4: at age at least 30 minutes the outcome classification is a strict
partition by the fixed thresholds — RUGGED exactly when return ≤ -80,
WINNER exactly when return ≥ 20 (and not rugged), LOSER exactly when
return ≤ -30 (and neither), else PENDING; any alert younger than 30
minutes is PENDING; and the rugged branch of `check_alert_outcome` sets
the token's `is_rugged` flag. -/
theorem C4_outcome_partition :
    (∀ age r : ℚ, 30 ≤ age →
      ((outcome_status_for age r = OutcomeStatus.RUGGED ↔ r ≤ -80) ∧
       (outcome_status_for age r = OutcomeStatus.WINNER ↔ -80 < r ∧ 20 ≤ r) ∧
       (outcome_status_for age r = OutcomeStatus.LOSER ↔ -80 < r ∧ r < 20 ∧ r ≤ -30) ∧
       (outcome_status_for age r = OutcomeStatus.PENDING ↔ -80 < r ∧ r < 20 ∧ -30 < r)))
    ∧ (∀ age r : ℚ, age < 30 → outcome_status_for age r = OutcomeStatus.PENDING)
    ∧ (∀ (dbTrades : List Trade) (meta : TokenMeta) (alert : Alert) (token : Token) (now : Int),
        (check_alert_outcome dbTrades meta alert token now).1.status = OutcomeStatus.RUGGED →
        ((check_alert_outcome dbTrades meta alert token now).2.2).is_rugged = true) := by
  refine ⟨?_, ?_, ?_⟩
  · intro age r hage
    unfold outcome_status_for RUG_THRESHOLD_PCT WIN_THRESHOLD_PCT LOSS_THRESHOLD_PCT
    rw [if_neg (not_lt.mpr hage)]
    split_ifs with h1 h2 h3
    · exact ⟨iff_of_true rfl h1,
        iff_of_false (by decide) (fun hc => absurd hc.1 (not_lt.mpr h1)),
        iff_of_false (by decide) (fun hc => absurd hc.1 (not_lt.mpr h1)),
        iff_of_false (by decide) (fun hc => absurd hc.1 (not_lt.mpr h1))⟩
    · exact ⟨iff_of_false (by decide) h1,
        iff_of_true rfl ⟨not_le.mp h1, h2⟩,
        iff_of_false (by decide) (fun hc => absurd h2 (not_le.mpr hc.2.1)),
        iff_of_false (by decide) (fun hc => absurd h2 (not_le.mpr hc.2.1))⟩
    · exact ⟨iff_of_false (by decide) h1,
        iff_of_false (by decide) (fun hc => absurd hc.2 h2),
        iff_of_true rfl ⟨not_le.mp h1, not_le.mp h2, h3⟩,
        iff_of_false (by decide) (fun hc => absurd h3 (not_le.mpr hc.2.2))⟩
    · exact ⟨iff_of_false (by decide) h1,
        iff_of_false (by decide) (fun hc => absurd hc.2 h2),
        iff_of_false (by decide) (fun hc => absurd hc.2.2 h3),
        iff_of_true rfl ⟨not_le.mp h1, not_le.mp h2, not_le.mp h3⟩⟩
  · intro age r h
    simp [outcome_status_for, h]
  · intro dbTrades meta alert token now h
    unfold check_alert_outcome at h ⊢
    dsimp only at h ⊢
    rw [if_pos h]

/-- Witness for C4: age 40 minutes with return -85% classifies as RUGGED
through the theorem, and the concrete check sets the token's rugged flag. -/
theorem C4_outcome_partition_witness :
    outcome_status_for 40 (-85) = OutcomeStatus.RUGGED ∧
    ((check_alert_outcome [trade_rug_fix] meta_rug_fix alert_rug_fix token_rug_fix 2400).2.2).is_rugged = true :=
  ⟨((C4_outcome_partition.1 40 (-85) (by norm_num)).1).mpr (by norm_num),
   C4_outcome_partition.2.2 [trade_rug_fix] meta_rug_fix alert_rug_fix token_rug_fix 2400
     (by with_unfolding_all decide)⟩

/-- C6: the conviction score is clamped into [0, 100] for every wallet,
database and abstracted square root; and for a wallet with zero recorded
trades (hence no realized PnL) the frequency and PnL components are 0, the
consistency metric falls back to its default 50, and the early-entry and
rug-avoidance computations take their guarded fallbacks (0 and 100) instead
of dividing by zero. -/
theorem C6_conviction_score_bounds (sqrtFn : ℚ → ℚ) (db : DB) (now : Int)
    (wallet : SmartWallet)
    (h0 : db.trades.filter (fun t => t.wallet_id == wallet.id) = [])
    (hp : wallet.pnl_total_sol ≤ 0) :
    (∀ (g : ℚ → ℚ) (db' : DB) (now' : Int) (w' : SmartWallet),
       0 ≤ calculate_score g db' now' w' ∧ calculate_score g db' now' w' ≤ 100)
    ∧ score_frequency (gather_metrics sqrtFn db now wallet).trades_7d = 0
    ∧ score_pnl (gather_metrics sqrtFn db now wallet).pnl_total_sol = 0
    ∧ (gather_metrics sqrtFn db now wallet).consistency_score = 50
    ∧ (gather_metrics sqrtFn db now wallet).early_entry_rate = 0
    ∧ (gather_metrics sqrtFn db now wallet).rug_avoidance_rate = 100 := by
  have hg : gather_metrics sqrtFn db now wallet =
      { win_rate := wallet.win_rate, trades_7d := 0, trades_30d := 0,
        pnl_total_sol := wallet.pnl_total_sol, pnl_7d_sol := wallet.pnl_7d_sol,
        consistency_score := 50, early_entry_rate := 0, rug_avoidance_rate := 100 } := by
    unfold gather_metrics calculate_consistency pnls_by_token
    rw [h0]
    simp
  refine ⟨?_, ?_, ?_, ?_, ?_, ?_⟩
  · intro g db' now' w'
    unfold calculate_score
    constructor
    · exact le_min (by norm_num) (le_max_left 0 _)
    · exact min_le_left _ _
  · rw [hg]
    norm_num [score_frequency, WEIGHT_FREQUENCY]
  · rw [hg]
    simp only [score_pnl]
    rw [if_pos hp]
  · rw [hg]
  · rw [hg]
  · rw [hg]

/-- Witness for C6 at the concrete fixture wallet (no trades, zero PnL). -/
theorem C6_conviction_score_witness :
    (0 ≤ calculate_score id db_fix 0 wallet_fix ∧ calculate_score id db_fix 0 wallet_fix ≤ 100)
    ∧ (gather_metrics id db_fix 0 wallet_fix).consistency_score = 50 :=
  ⟨(C6_conviction_score_bounds id db_fix 0 wallet_fix rfl (le_refl 0)).1 id db_fix 0 wallet_fix,
   (C6_conviction_score_bounds id db_fix 0 wallet_fix rfl (le_refl 0)).2.2.2.1⟩

/-- Counterexample for C8: the win-rate scoring formula has no upper clamp,
so a win_rate metric of 150 yields a component of 60, above its weight 30. -/
theorem C8_counterexample_win_rate_overflow :
    score_win_rate 150 = 60 ∧ ¬(score_win_rate 150 ≤ WEIGHT_WIN_RATE) := by
  constructor <;> norm_num [score_win_rate, WEIGHT_WIN_RATE]

/-- A 100-minus-nonnegative expression clamped below at 0 stays at most 100. -/
theorem max_cv_le_100 (c : ℚ) (hc : 0 ≤ c) : max 0 (100 - c * 50) ≤ (100:ℚ) :=
  max_le (by norm_num) (by linarith)

/-- `_calculate_consistency` always returns a value in [0, 100]. -/
theorem calculate_consistency_bounds (sqrtFn : ℚ → ℚ) (db : DB) (wallet : SmartWallet) :
    0 ≤ calculate_consistency sqrtFn db wallet ∧
    calculate_consistency sqrtFn db wallet ≤ 100 := by
  unfold calculate_consistency
  dsimp only
  split_ifs
  · norm_num
  · norm_num
  · exact ⟨le_max_left 0 _, max_cv_le_100 _ (abs_nonneg _)⟩

/-- C8 amended: each conviction component is nonnegative and bounded by its
weight on its documented input range — unconditionally for the frequency,
PnL and early-entry components (clamped via `min`) and for consistency (as
produced by `_calculate_consistency`), and under the 0-100 range assumption
for the win-rate and rug-avoidance formulas, which carry no upper clamp of
their own. -/
theorem C8_component_bounds :
    (∀ wr : ℚ, 0 ≤ wr → wr ≤ 100 →
      0 ≤ score_win_rate wr ∧ score_win_rate wr ≤ WEIGHT_WIN_RATE)
    ∧ (∀ (g : ℚ → ℚ) (db : DB) (w : SmartWallet),
        0 ≤ score_consistency (calculate_consistency g db w) ∧
        score_consistency (calculate_consistency g db w) ≤ WEIGHT_CONSISTENCY)
    ∧ (∀ n : Nat, 0 ≤ score_frequency n ∧ score_frequency n ≤ WEIGHT_FREQUENCY)
    ∧ (∀ p : ℚ, 0 ≤ score_pnl p ∧ score_pnl p ≤ WEIGHT_PNL)
    ∧ (∀ r : ℚ, 0 ≤ r → 0 ≤ score_early_entry r ∧ score_early_entry r ≤ WEIGHT_EARLY_ENTRY)
    ∧ (∀ a : ℚ, a ≤ 100 →
        0 ≤ score_rug_avoidance a ∧ score_rug_avoidance a ≤ WEIGHT_RUG_AVOIDANCE) := by
  refine ⟨?_, ?_, ?_, ?_, ?_, ?_⟩
  · intro wr h0 h100
    unfold score_win_rate WEIGHT_WIN_RATE
    split_ifs with h
    · norm_num
    · constructor <;> linarith
  · intro g db w
    obtain ⟨hlo, hhi⟩ := calculate_consistency_bounds g db w
    unfold score_consistency WEIGHT_CONSISTENCY
    constructor <;> linarith
  · intro n
    unfold score_frequency WEIGHT_FREQUENCY
    have h1 : (0:ℚ) ≤ min 1 ((n : ℚ) / 10) :=
      le_min (by norm_num) (div_nonneg (Nat.cast_nonneg n) (by norm_num))
    have h2 : min 1 ((n : ℚ) / 10) ≤ 1 := min_le_left _ _
    constructor <;> nlinarith
  · intro p
    unfold score_pnl WEIGHT_PNL
    split_ifs with h
    · norm_num
    · have h1 : (0:ℚ) ≤ min 1 (p / 100) :=
        le_min (by norm_num) (div_nonneg (le_of_lt (lt_of_not_le h)) (by norm_num))
      have h2 : min 1 (p / 100) ≤ 1 := min_le_left _ _
      constructor <;> nlinarith
  · intro r hr
    unfold score_early_entry WEIGHT_EARLY_ENTRY
    have h1 : (0:ℚ) ≤ min 1 (r / 50) :=
      le_min (by norm_num) (div_nonneg hr (by norm_num))
    have h2 : min 1 (r / 50) ≤ 1 := min_le_left _ _
    constructor <;> nlinarith
  · intro a h100
    unfold score_rug_avoidance WEIGHT_RUG_AVOIDANCE
    split_ifs with h
    · norm_num
    · constructor <;> linarith

/-- Witness for the C8 amended bounds at in-range metric values. -/
theorem C8_component_bounds_witness :
    (0 ≤ score_win_rate 80 ∧ score_win_rate 80 ≤ WEIGHT_WIN_RATE) ∧
    (0 ≤ score_rug_avoidance 90 ∧ score_rug_avoidance 90 ≤ WEIGHT_RUG_AVOIDANCE) ∧
    (0 ≤ score_early_entry 40 ∧ score_early_entry 40 ≤ WEIGHT_EARLY_ENTRY) :=
  ⟨C8_component_bounds.1 80 (by norm_num) (by norm_num),
   C8_component_bounds.2.2.2.2.2 90 (by norm_num),
   C8_component_bounds.2.2.2.2.1 40 (by norm_num)⟩

/-- C10: with at least one simulated trade, and trade PnL fields related as
`_simulate_trade` sets them (`pnl_sol = position_size_sol * pnl_pct / 100`
with a positive position size), the reported profit factor equals gross
profit over gross loss whenever the gross loss is positive, and is
infinity (`none`) whenever there are zero losing trades and at least one
winning trade. -/
theorem C10_profit_factor (trades : List BacktestTrade)
    (h1 : trades ≠ [])
    (h2 : ∀ t ∈ trades, t.pnl_sol = t.position_size_sol * t.pnl_pct / 100 ∧
      0 < t.position_size_sol) :
    (0 < gross_loss trades →
      (calculate_stats trades).profit_factor = some (gross_profit trades / gross_loss trades))
    ∧ ((calculate_stats trades).losing_trades = 0 →
        0 < (calculate_stats trades).winning_trades →
        (calculate_stats trades).profit_factor = none) := by
  have hne : ¬(trades.isEmpty = true) := by
    simp [List.isEmpty_iff, h1]
  constructor
  · intro hgl
    unfold calculate_stats
    rw [if_neg hne]
    dsimp only
    rw [if_pos hgl]
  · intro hl _
    unfold calculate_stats at hl ⊢
    rw [if_neg hne] at hl ⊢
    dsimp only at hl ⊢
    have hall : ∀ t ∈ trades, ¬((fun t => decide (t.pnl_pct ≤ 0)) t = true) :=
      List.countP_eq_zero.mp hl
    have hfil : trades.filter (fun t => decide (t.pnl_sol < 0)) = [] := by
      rw [List.filter_eq_nil_iff]
      intro t ht
      have hpos : 0 < t.pnl_pct := by
        have := hall t ht
        simp only [decide_eq_true_eq] at this
        exact lt_of_not_le this
      obtain ⟨heq, hsize⟩ := h2 t ht
      have : 0 < t.pnl_sol := by
        rw [heq]
        exact div_pos (mul_pos hsize hpos) (by norm_num)
      simp only [decide_eq_true_eq]
      exact not_lt.mpr (le_of_lt this)
    have hgl0 : gross_loss trades = 0 := by
      unfold gross_loss
      rw [hfil]
      simp
    rw [if_neg (by rw [hgl0]; exact lt_irrefl 0)]

/-- Witness for C10: one mixed run evaluates the finite ratio, one
loss-free run evaluates to infinity, both through the theorem. -/
theorem C10_profit_factor_witness :
    (calculate_stats [bt_win_fix, bt_loss_fix]).profit_factor
      = some (gross_profit [bt_win_fix, bt_loss_fix] / gross_loss [bt_win_fix, bt_loss_fix])
    ∧ (calculate_stats [bt_win_fix]).profit_factor = none :=
  ⟨(C10_profit_factor [bt_win_fix, bt_loss_fix] (by simp)
      (by with_unfolding_all decide)).1 (by with_unfolding_all decide),
   (C10_profit_factor [bt_win_fix] (by simp)
      (by with_unfolding_all decide)).2 (by with_unfolding_all decide)
      (by with_unfolding_all decide)⟩

/-- Counterexample for C2: `check_alert_outcome` invoked on an alert only
10 minutes old (status PENDING) still writes both outcome fields, so they
do not remain null until 30 minutes have elapsed. -/
theorem C2_counterexample_early_outcome_write :
    ((600 : Int) - alert_young_fix.created_at) / 60 < 30 ∧
    alert_young_fix.outcome_pnl = none ∧
    alert_young_fix.outcome_checked_at = none ∧
    (check_alert_outcome [] meta_young_fix alert_young_fix token_rug_fix 600).1.status
      = OutcomeStatus.PENDING ∧
    (check_alert_outcome [] meta_young_fix alert_young_fix token_rug_fix 600).2.1.outcome_pnl
      ≠ none ∧
    (check_alert_outcome [] meta_young_fix alert_young_fix token_rug_fix 600).2.1.outcome_checked_at
      = some 600 := by
  set_option maxRecDepth 8000 in with_unfolding_all decide

/-- An alert whose id differs from the processed one survives a single
`check_pending_alerts` iteration unchanged. -/
theorem mem_alerts_run_alert_check (metaOf : String → TokenMeta) (acc : DB) (now : Int)
    (b a : Alert) (ha : a ∈ acc.alerts) (hne : a.id ≠ b.id) :
    a ∈ (run_alert_check metaOf acc now b).alerts := by
  unfold run_alert_check
  split
  · exact ha
  · rename_i tok heq
    dsimp only
    have hfa : (fun x : Alert =>
        if x.id == b.id then
          (check_alert_outcome acc.trades (metaOf tok.contract_address) b tok now).2.1
        else x) a = a := by
      simp only [beq_iff_eq]
      rw [if_neg hne]
    exact hfa ▸ List.mem_map_of_mem _ ha

/-- An alert whose id is hit by none of a batch of processed alerts
survives the whole `check_pending_alerts` fold unchanged. -/
theorem mem_alerts_foldl_run_alert_check (metaOf : String → TokenMeta) (now : Int) :
    ∀ (sel : List Alert) (acc : DB) (a : Alert), a ∈ acc.alerts →
      (∀ b ∈ sel, a.id ≠ b.id) →
      a ∈ (sel.foldl (fun acc b => run_alert_check metaOf acc now b) acc).alerts := by
  intro sel
  induction sel with
  | nil => intro acc a ha _; exact ha
  | cons b bs ih =>
    intro acc a ha hne
    simp only [List.foldl_cons]
    exact ih _ a
      (mem_alerts_run_alert_check metaOf acc now b a ha (hne b (List.mem_cons_self b bs)))
      (fun c hc => hne c (List.mem_cons_of_mem b hc))

/-- C2 amended: the batch path preserves the invariant — an alert younger
than 30 minutes never matches the `check_pending_alerts` selection filter
(so any alert the filter selects is at least 30 minutes old), and provided
alert ids are unique the young alert's row — outcome fields included — is
untouched by `check_pending_alerts`; `check_alert_outcome` called directly,
however, writes the outcome fields unconditionally (see the
counterexample). -/
theorem C2_outcome_fields_null_via_pending_check (metaOf : String → TokenMeta)
    (db : DB) (now : Int) (a : Alert)
    (hmem : a ∈ db.alerts)
    (hyoung : now - 30 * 60 < a.created_at)
    (hid : ∀ b ∈ db.alerts, b.id = a.id → b = a) :
    alert_needs_check now a = false
    ∧ (∀ b : Alert, alert_needs_check now b = true →
        30 ≤ ((now - b.created_at : Int) : ℚ) / 60)
    ∧ a ∈ (check_pending_alerts metaOf db now).alerts := by
  have hnc : alert_needs_check now a = false := by
    have h1 : ¬(a.created_at ≤ now - 1800) := by omega
    simp [alert_needs_check, h1]
  refine ⟨hnc, ?_, ?_⟩
  · intro b hb
    have h1 : b.created_at ≤ now - 30 * 60 := by
      unfold alert_needs_check at hb
      have := (Bool.and_eq_true _ _).mp hb
      simpa using this.1
    have h2 : (1800 : ℚ) ≤ ((now - b.created_at : Int) : ℚ) := by
      have : (1800 : Int) ≤ now - b.created_at := by omega
      exact_mod_cast this
    linarith
  · unfold check_pending_alerts
    refine mem_alerts_foldl_run_alert_check metaOf now _ db a hmem ?_
    intro b hb
    have hbf := List.mem_of_mem_take hb
    have hbm := (List.mem_filter.mp hbf).1
    have hbp := (List.mem_filter.mp hbf).2
    intro heq
    have hba : b = a := hid b hbm heq.symm
    rw [hba] at hbp
    rw [hnc] at hbp
    cases hbp

/-- Witness for the C2 amended theorem at a concrete young alert. -/
theorem C2_outcome_fields_null_witness :
    alert_needs_check 600 alert_young_fix = false
    ∧ alert_young_fix ∈
        (check_pending_alerts (fun _ => meta_young_fix)
          { alerts := [alert_young_fix] } 600).alerts :=
  ⟨(C2_outcome_fields_null_via_pending_check (fun _ => meta_young_fix)
      { alerts := [alert_young_fix] } 600 alert_young_fix
      (List.mem_singleton.mpr rfl) (by norm_num [alert_young_fix])
      (by intro b hb _; simpa using hb)).1,
   (C2_outcome_fields_null_via_pending_check (fun _ => meta_young_fix)
      { alerts := [alert_young_fix] } 600 alert_young_fix
      (List.mem_singleton.mpr rfl) (by norm_num [alert_young_fix])
      (by intro b hb _; simpa using hb)).2.2⟩

/-- C9 amended: over the windowed outcome-checked alerts, the overall win
rate is winners over (winners plus alerts at or below the -30 loser
threshold) — a denominator that includes the rugged alerts — and likewise
per signal type; every rugged-threshold alert counts as a loser here, so
RUGGED is not a distinct class in this computation. -/
theorem C9_win_rate_over_threshold_losers (db : DB) (now days : Int) :
    ((get_performance_stats db now days).win_rate =
      (if 0 < count_winners (windowed_checked_alerts db now days) +
            count_losers_threshold (windowed_checked_alerts db now days) then
        ((count_winners (windowed_checked_alerts db now days) : ℚ) /
          ((count_winners (windowed_checked_alerts db now days) +
            count_losers_threshold (windowed_checked_alerts db now days) : ℕ) : ℚ)) * 100
      else 0))
    ∧ (get_performance_stats db now days).winners
        = count_winners (windowed_checked_alerts db now days)
    ∧ (get_performance_stats db now days).losers
        = count_losers_threshold (windowed_checked_alerts db now days)
    ∧ (∀ ty : String,
        win_rate_for_type (windowed_checked_alerts db now days) ty =
          (if 0 < count_losers_threshold
                ((windowed_checked_alerts db now days).filter (fun a => a.alert_type == ty)) +
              count_winners
                ((windowed_checked_alerts db now days).filter (fun a => a.alert_type == ty)) then
            ((count_winners ((windowed_checked_alerts db now days).filter
                (fun a => a.alert_type == ty)) : ℚ) /
              ((count_losers_threshold ((windowed_checked_alerts db now days).filter
                  (fun a => a.alert_type == ty)) +
                count_winners ((windowed_checked_alerts db now days).filter
                  (fun a => a.alert_type == ty)) : ℕ) : ℚ)) * 100
          else 0))
    ∧ (get_performance_stats db now days).high_conviction_win_rate
        = win_rate_for_type (windowed_checked_alerts db now days) "high_conviction"
    ∧ (∀ a : Alert, pnl_of a ≤ RUG_THRESHOLD_PCT → pnl_of a ≤ LOSS_THRESHOLD_PCT) := by
  refine ⟨?_, ?_, ?_, ?_, ?_, ?_⟩
  · unfold get_performance_stats windowed_checked_alerts count_winners count_losers_threshold
    dsimp only
    split
    · rename_i hemp
      rw [List.isEmpty_iff] at hemp
      rw [hemp]
      simp [PerformanceStats.win_rate]
    · rfl
  · unfold get_performance_stats windowed_checked_alerts count_winners
    dsimp only
    split
    · rename_i hemp
      rw [List.isEmpty_iff] at hemp
      rw [hemp]
      simp [PerformanceStats.winners]
    · rfl
  · unfold get_performance_stats windowed_checked_alerts count_losers_threshold
    dsimp only
    split
    · rename_i hemp
      rw [List.isEmpty_iff] at hemp
      rw [hemp]
      simp [PerformanceStats.losers]
    · rfl
  · intro ty
    rfl
  · unfold get_performance_stats windowed_checked_alerts
    dsimp only
    split
    · rename_i hemp
      rw [List.isEmpty_iff] at hemp
      rw [hemp]
      simp [PerformanceStats.high_conviction_win_rate, win_rate_for_type]
    · rfl
  · intro a h
    unfold RUG_THRESHOLD_PCT at h
    unfold LOSS_THRESHOLD_PCT
    linarith

/-- Counterexample for C9: with one winner (+50%) and one rugged alert
(-90%), the computed win rate is 50% because the rugged alert is counted
in the loser denominator, while the claim's reading — rugged as a class
distinct from loser — would give 100%. -/
theorem C9_counterexample_rugged_counted_as_loser :
    (get_performance_stats db_stats_fix 0 7).win_rate = 50 ∧
    (get_performance_stats db_stats_fix 0 7).rugged = 1 ∧
    (get_performance_stats db_stats_fix 0 7).losers = 1 ∧
    (get_performance_stats db_stats_fix 0 7).high_conviction_win_rate = 50 ∧
    spec_win_rate_rugged_distinct (windowed_checked_alerts db_stats_fix 0 7) = 100 ∧
    (50 : ℚ) ≠ 100 := by
  set_option maxRecDepth 8000 in with_unfolding_all decide

/-- Witness for the C9 amended theorem: the rugged fixture alert falls
under the loser threshold. -/
theorem C9_win_rate_witness :
    pnl_of alert_rugged_fix ≤ LOSS_THRESHOLD_PCT :=
  (C9_win_rate_over_threshold_losers db_stats_fix 0 7).2.2.2.2.2 alert_rugged_fix
    (by norm_num [pnl_of, alert_rugged_fix, RUG_THRESHOLD_PCT])

/-- Token creation and update never touch the trades table. -/
theorem get_or_create_token_trades (db : DB) (now : Int) (ca : String)
    (mc ts : Option ℚ) :
    (get_or_create_token db now ca mc ts).2.trades = db.trades := by
  unfold get_or_create_token
  split <;> rfl

/-- `_record_trade` keeps the trades table unchanged when the signature
exists, and appends exactly one trade carrying the signature otherwise. -/
theorem record_trade_trades (db : DB) (w : SmartWallet) (tok : Token)
    (sa ta sp : ℚ) (sig : String) (bt : Int) (mc : Option ℚ) :
    ((db.trades.find? (fun t => t.tx_signature == sig)).isSome →
      (record_trade db w tok sa ta sp sig bt mc).2.trades = db.trades)
    ∧ (db.trades.find? (fun t => t.tx_signature == sig) = none →
      (record_trade db w tok sa ta sp sig bt mc).2.trades
        = db.trades ++ [(record_trade db w tok sa ta sp sig bt mc).1]
      ∧ (record_trade db w tok sa ta sp sig bt mc).1.tx_signature = sig) := by
  constructor
  · intro h
    unfold record_trade
    cases hf : db.trades.find? (fun t => t.tx_signature == sig) with
    | none => rw [hf] at h; simp at h
    | some t0 => rfl
  · intro h
    unfold record_trade
    rw [h]
    exact ⟨rfl, rfl⟩

/-- The cluster check (and the ClusterEvent it may record) never touches
the trades table. -/
theorem check_cluster_buying_trades (s : Settings) (db : DB) (now : Int)
    (token : Token) :
    (check_cluster_buying s db now token).2.trades = db.trades := by
  unfold check_cluster_buying record_cluster_event
  dsimp only
  split <;> rfl

/-- How `process_buy_event` changes the trades table: unchanged for an
unknown wallet, unchanged when the signature already exists, and extended
by exactly one trade carrying the signature otherwise. -/
theorem process_buy_event_trades (s : Settings) (db : DB) (now : Int) (e : BuyEvent) :
    (get_by_address db e.wallet_address = none →
      (process_buy_event s db now e).2.trades = db.trades)
    ∧ (get_by_address db e.wallet_address ≠ none →
       ((db.trades.find? (fun t => t.tx_signature == e.tx_signature)).isSome →
        (process_buy_event s db now e).2.trades = db.trades))
    ∧ (∀ w : SmartWallet, get_by_address db e.wallet_address = some w →
       db.trades.find? (fun t => t.tx_signature == e.tx_signature) = none →
      ∃ tr : Trade, tr.tx_signature = e.tx_signature ∧
        (process_buy_event s db now e).2.trades = db.trades ++ [tr]) := by
  have ht : (get_or_create_token db now e.token_ca e.market_cap e.total_supply).2.trades
      = db.trades := get_or_create_token_trades db now e.token_ca e.market_cap e.total_supply
  refine ⟨?_, ?_, ?_⟩
  · intro h
    unfold process_buy_event
    rw [h]
  · intro hw hf
    obtain ⟨w, hww⟩ := Option.ne_none_iff_exists'.mp hw
    have hsome : ((get_or_create_token db now e.token_ca e.market_cap e.total_supply).2.trades.find?
        (fun t => t.tx_signature == e.tx_signature)).isSome := by
      rw [ht]; exact hf
    have hrt := (record_trade_trades
      (get_or_create_token db now e.token_ca e.market_cap e.total_supply).2 w
      (get_or_create_token db now e.token_ca e.market_cap e.total_supply).1
      e.sol_amount e.token_amount (compute_supply_pct e.token_amount e.total_supply)
      e.tx_signature e.block_time e.market_cap).1 hsome
    unfold process_buy_event
    rw [hww]
    dsimp only
    rw [check_cluster_buying_trades, hrt, ht]
  · intro w hww hf
    have hnone : (get_or_create_token db now e.token_ca e.market_cap e.total_supply).2.trades.find?
        (fun t => t.tx_signature == e.tx_signature) = none := by
      rw [ht]; exact hf
    obtain ⟨hrt, hrs⟩ := (record_trade_trades
      (get_or_create_token db now e.token_ca e.market_cap e.total_supply).2 w
      (get_or_create_token db now e.token_ca e.market_cap e.total_supply).1
      e.sol_amount e.token_amount (compute_supply_pct e.token_amount e.total_supply)
      e.tx_signature e.block_time e.market_cap).2 hnone
    refine ⟨(record_trade
      (get_or_create_token db now e.token_ca e.market_cap e.total_supply).2 w
      (get_or_create_token db now e.token_ca e.market_cap e.total_supply).1
      e.sol_amount e.token_amount (compute_supply_pct e.token_amount e.total_supply)
      e.tx_signature e.block_time e.market_cap).1, hrs, ?_⟩
    unfold process_buy_event
    rw [hww]
    dsimp only
    rw [check_cluster_buying_trades, hrt, ht]

/-- C1 amended: processing a buy event from a known wallet whose signature
is new, then re-submitting any event with the same signature, leaves
exactly one persisted trade carrying that signature (the second call
reuses the existing trade). -/
theorem C1_trade_dedup (s1 s2 : Settings) (db : DB) (now1 now2 : Int)
    (e1 e2 : BuyEvent)
    (hsig : e2.tx_signature = e1.tx_signature)
    (hw : get_by_address db e1.wallet_address ≠ none)
    (h0 : ∀ t ∈ db.trades, t.tx_signature ≠ e1.tx_signature) :
    ((process_buy_event s1 db now1 e1).2.trades.countP
        (fun t => t.tx_signature == e1.tx_signature) = 1)
    ∧ ((process_buy_event s2 (process_buy_event s1 db now1 e1).2 now2 e2).2.trades.countP
        (fun t => t.tx_signature == e1.tx_signature) = 1) := by
  obtain ⟨w, hww⟩ := Option.ne_none_iff_exists'.mp hw
  have hf0 : db.trades.find? (fun t => t.tx_signature == e1.tx_signature) = none := by
    rw [List.find?_eq_none]
    intro t ht
    simp [h0 t ht]
  obtain ⟨tr, htr_sig, htr_eq⟩ := (process_buy_event_trades s1 db now1 e1).2.2 w hww hf0
  have hcount0 : db.trades.countP (fun t => t.tx_signature == e1.tx_signature) = 0 := by
    rw [List.countP_eq_zero]
    intro t ht
    simp [h0 t ht]
  have hcount1 : (process_buy_event s1 db now1 e1).2.trades.countP
      (fun t => t.tx_signature == e1.tx_signature) = 1 := by
    rw [htr_eq, List.countP_append, hcount0, List.countP_cons]
    simp [htr_sig]
  refine ⟨hcount1, ?_⟩
  have hmem : tr ∈ (process_buy_event s1 db now1 e1).2.trades := by
    rw [htr_eq]
    exact List.mem_append_right _ (List.mem_singleton.mpr rfl)
  have hfs : ((process_buy_event s1 db now1 e1).2.trades.find?
      (fun t => t.tx_signature == e2.tx_signature)).isSome := by
    rw [List.find?_isSome]
    exact ⟨tr, hmem, by simp [htr_sig, hsig]⟩
  by_cases hw2 : get_by_address (process_buy_event s1 db now1 e1).2 e2.wallet_address = none
  · rw [(process_buy_event_trades s2 (process_buy_event s1 db now1 e1).2 now2 e2).1 hw2]
    exact hcount1
  · rw [hsig] at hfs
    rw [(process_buy_event_trades s2 (process_buy_event s1 db now1 e1).2 now2 e2).2.1 hw2
      (by rw [hsig]; exact hfs)]
    exact hcount1

/-- Witness for the C1 amended theorem at the concrete fixture event,
re-submitted 500 seconds later. -/
theorem C1_trade_dedup_witness :
    ((process_buy_event ({} : Settings) db_fix 1000 buy_fix).2.trades.countP
        (fun t => t.tx_signature == buy_fix.tx_signature) = 1)
    ∧ ((process_buy_event ({} : Settings)
          (process_buy_event ({} : Settings) db_fix 1000 buy_fix).2 1500 buy_fix).2.trades.countP
        (fun t => t.tx_signature == buy_fix.tx_signature) = 1) :=
  C1_trade_dedup {} {} db_fix 1000 1500 buy_fix buy_fix rfl
    (by with_unfolding_all decide)
    (by intro t ht; simp [db_fix] at ht)

/-- Counterexample for C1: re-submitting the same high-conviction buy event
returns the identical signal list a second time — in particular a second
triggered HIGH_CONVICTION signal for the very same persisted trade (id 1) —
so re-submission does produce a duplicate alert trigger, even though only
one trade row exists. -/
theorem C1_counterexample_duplicate_trigger :
    ((process_buy_event ({} : Settings)
        (process_buy_event ({} : Settings) db_fix 1000 buy_fix).2 1000 buy_fix).2.trades.countP
      (fun t => t.tx_signature == "SIG") = 1)
    ∧ (process_buy_event ({} : Settings)
        (process_buy_event ({} : Settings) db_fix 1000 buy_fix).2 1000 buy_fix).1
      = (process_buy_event ({} : Settings) db_fix 1000 buy_fix).1
    ∧ ((process_buy_event ({} : Settings) db_fix 1000 buy_fix).1.countP
        (fun r => r.signal_type == SignalType.HIGH_CONVICTION && r.triggered) = 1)
    ∧ ((process_buy_event ({} : Settings) db_fix 1000 buy_fix).1.map
        (fun r => r.trade_ids)) = [[1]] := by
  set_option maxRecDepth 8000 in with_unfolding_all decide
